import Mathlib

/-!
Shallow embedding of the reconciliation core of the
statuspage-prometheus-exporter (Atlassian variant): the per-entity gauge
update logic of `service_monitor.monitor_services`, the timestamp
normalization `normalize_timestamp`, and the severity derivation, status
mapping and cache (baseline) update policy of
`service_checker.check_status_page_service`.

Python dict records are modelled as structures whose fields are always
present (the source constructs each record with every key, and `.get`
defaults are folded into default records where the source can look up a
missing entry).  Python `set` values are modelled as `Finset`; where the
source iterates over a set (whose order CPython leaves unspecified) the
model iterates in first-occurrence order of the originating list.
Character-class tests (`\d` in the regex, `str.lower`) are modelled over
ASCII, which covers every string the claims mention.
-/

namespace Statuspage

/-- Incident record as built in `check_status_page_service`
(service_checker.py lines 262-271). -/
structure Incident where
  id : String
  name : String
  status : String
  impact : String
  started_at : String
  updated_at : String
  shortlink : String
  affected_components : List String
deriving DecidableEq, Repr

/-- Maintenance record as built in `check_status_page_service`
(service_checker.py lines 360-368). -/
structure Maintenance where
  id : String
  name : String
  status : String
  scheduled_start : String
  scheduled_end : String
  shortlink : String
  affected_components : List String
deriving DecidableEq, Repr

/-- Component record as built in `check_status_page_service`
(service_checker.py lines 181-185). -/
structure Component where
  name : String
  status : String
  status_value : Int
deriving DecidableEq, Repr

/-- Poll result dictionary returned by `check_status_page_service`
(service_checker.py lines 400-410; the error records of lines 520-600
have `status := none` and `success := false`).  `response_time` is
modelled as an integer: no claim depends on its arithmetic, only on
whether and where it is written. -/
structure PollResult where
  status : Option Int
  response_time : Int
  raw_status : String
  status_text : String
  details : String
  success : Bool
  incident_metadata : List Incident
  maintenance_metadata : List Maintenance
  component_metadata : List Component
deriving DecidableEq, Repr

/-! ### Timestamp normalization (service_monitor.py lines 91-108) -/

/-- The character class `[Z\+\-]` of the regex. -/
def isTzStart (c : Char) : Bool :=
  c = 'Z' || c = '+' || c = '-'

/-- Does the list start with exactly the tail of the pattern
`\.\d{3}(?=[Z\+\-])`, i.e. three digits followed by a lookahead
character? -/
def matchesMillis : List Char → Bool
  | d1 :: d2 :: d3 :: t :: _ =>
      d1.isDigit && d2.isDigit && d3.isDigit && isTzStart t
  | _ => false

/-- One left-to-right pass of `re.sub(r'\.\d{3}(?=[Z\+\-])', '', s)`:
each non-overlapping match `.ddd` is removed and scanning resumes at the
lookahead character (which the match does not consume).  Fuel-indexed so
that the recursion is structural; `stripMillis` supplies fuel equal to
the input length, which one step never outruns. -/
def stripMillisAux : Nat → List Char → List Char
  | 0, l => l
  | _ + 1, [] => []
  | fuel + 1, c :: rest =>
      if c = '.' && matchesMillis rest then
        stripMillisAux fuel (rest.drop 3)
      else
        c :: stripMillisAux fuel rest

def stripMillis (l : List Char) : List Char :=
  stripMillisAux l.length l

/-- `normalize_timestamp` (service_monitor.py lines 91-108): empty,
`N/A` and `unknown` pass through; otherwise the millisecond pattern is
stripped. -/
def normalize_timestamp (s : String) : String :=
  if s = "" || s = "N/A" || s = "unknown" then s
  else String.mk (stripMillis s.data)

/-- Does `\.\d{3}(?=[Z\+\-])` match anywhere in the list?  Used to state
which strings `normalize_timestamp` leaves unchanged. -/
def hasMillisPattern : List Char → Bool
  | [] => false
  | c :: rest => (c = '.' && matchesMillis rest) || hasMillisPattern rest

/-! ### Severity derivation (service_checker.py lines 295-322) -/

/-- ASCII model of Python `str.lower()`. -/
def lowerStr (s : String) : String :=
  String.mk (s.data.map Char.toLower)

/-- ASCII model of Python `str.startswith(p)` on the character lists. -/
def startsWithChars : List Char → List Char → Bool
  | [], _ => true
  | _ :: _, [] => false
  | p :: ps, c :: cs => p = c && startsWithChars ps cs

/-- The synthetic-test marker filter (service_checker.py lines 257, 310):
`name.startswith('_system_metadata:')`. -/
def isSystemMetadataTest (inc : Incident) : Bool :=
  startsWithChars "_system_metadata:".data inc.name.data

/-- `severity_priority.get(impact, 0)` with the dict of
service_checker.py lines 297-302. -/
def severity_priority (impact : String) : Nat :=
  if impact = "critical" then 3
  else if impact = "major" then 2
  else if impact = "minor" then 1
  else 0

/-- Running state of the highest-severity scan: the pair
`(highest_severity, highest_priority)` of lines 304-305. -/
structure SevState where
  severity : String
  priority : Nat
deriving DecidableEq, Repr

/-- Loop body of service_checker.py lines 307-317. -/
def sevStep (acc : SevState) (inc : Incident) : SevState :=
  if isSystemMetadataTest inc then acc
  else
    let imp := lowerStr inc.impact
    let p := severity_priority imp
    if acc.priority < p then ⟨imp, p⟩ else acc

/-- The scan over all active incidents, from the initial state
`('none', 0)`. -/
def highestSeverity (incs : List Incident) : SevState :=
  incs.foldl sevStep ⟨"none", 0⟩

/-- Lines 219 and 319-321: the indicator override runs only when active
incidents exist, and only when the scan found a severity above
`'none'`. -/
def derive_indicator (raw : String) (active : List Incident) : String :=
  if active = [] then raw
  else
    let hs := (highestSeverity active).severity
    if hs ≠ "none" then hs else raw

/-- Spec-level restatement: the maximum `severity_priority` over the
(lowercased) impacts of a list of incidents. -/
def maxImpactPriority (incs : List Incident) : Nat :=
  incs.foldl (fun m inc => max m (severity_priority (lowerStr inc.impact))) 0

/-- The impact name carrying a given priority under the total order
critical(3) > major(2) > minor(1) > none(0). -/
def severityName : Nat → String
  | 3 => "critical"
  | 2 => "major"
  | 1 => "minor"
  | _ => "none"

/-! ### Indicator-to-numeric status mapping (service_checker.py lines 379-386) -/

/-- The literal `status_mapping` dict of lines 379-384. -/
def status_mapping (s : String) : Option Int :=
  if s = "none" then some 1
  else if s = "minor" then some 0
  else if s = "major" then some 0
  else if s = "critical" then some 0
  else none

/-- `status_mapping.get(indicator.lower(), 0)` (line 386). -/
def statusValueOfIndicator (indicator : String) : Int :=
  (status_mapping (lowerStr indicator)).getD 0

/-! ### Gauge mutations emitted by `monitor_services`
(service_monitor.py lines 190-572, per-service body) -/

/-- Label set of `statuspage_incident_info`. -/
structure IncidentLabels where
  service_name : String
  incident_id : String
  incident_name : String
  impact : String
  shortlink : String
  started_at : String
  affected_components : String
deriving DecidableEq, Repr

/-- Label set of `statuspage_maintenance_info`. -/
structure MaintenanceLabels where
  service_name : String
  maintenance_id : String
  maintenance_name : String
  scheduled_start : String
  scheduled_end : String
  shortlink : String
  affected_components : String
deriving DecidableEq, Repr

/-- One `gauge.labels(...).set(value)` call. -/
inductive Mutation where
  | setStatus (service_name : String) (value : Int)
  | setResponseTime (service_name : String) (value : Int)
  | setIncidentInfo (labels : IncidentLabels) (value : Int)
  | setMaintenanceInfo (labels : MaintenanceLabels) (value : Int)
  | setComponentStatus (service_name : String) (component_name : String) (value : Int)
deriving DecidableEq, Repr

/-- Python `', '.join(l)`. -/
def joinComma : List String → String
  | [] => ""
  | [s] => s
  | s :: rest => s ++ ", " ++ joinComma rest

/-- Python `s[:n]` on strings (first `n` code points). -/
def takeChars (s : String) (n : Nat) : String :=
  String.mk (s.data.take n)

/-- The label combination written for an incident record: name truncated
to 100 chars, affected components joined with `, ` and truncated to 150
chars, started_at normalized (service_monitor.py lines 303-316 and
326-348; the retraction path passes the resolved id itself as the
`incident_id` label, so the id is a separate argument). -/
def incidentLabels (service_name id : String) (inc : Incident) : IncidentLabels :=
  { service_name := service_name
    incident_id := id
    incident_name := takeChars inc.name 100
    impact := inc.impact
    shortlink := inc.shortlink
    started_at := normalize_timestamp inc.started_at
    affected_components := takeChars (joinComma inc.affected_components) 150 }

/-- Sentinel labels written when no incident is active
(service_monitor.py lines 357-365). -/
def noIncidentLabels (service_name : String) : IncidentLabels :=
  { service_name := service_name
    incident_id := "none"
    incident_name := "No Active Incidents"
    impact := "none"
    shortlink := "N/A"
    started_at := "N/A"
    affected_components := "N/A" }

/-- The label combination written for a maintenance record
(service_monitor.py lines 431-445 and 452-476). -/
def maintenanceLabels (service_name id : String) (m : Maintenance) : MaintenanceLabels :=
  { service_name := service_name
    maintenance_id := id
    maintenance_name := takeChars m.name 100
    scheduled_start := normalize_timestamp m.scheduled_start
    scheduled_end := normalize_timestamp m.scheduled_end
    shortlink := m.shortlink
    affected_components := takeChars (joinComma m.affected_components) 150 }

/-- Sentinel labels written when no maintenance is active
(service_monitor.py lines 484-492). -/
def noMaintenanceLabels (service_name : String) : MaintenanceLabels :=
  { service_name := service_name
    maintenance_id := "none"
    maintenance_name := "No Active Maintenance"
    scheduled_start := "N/A"
    scheduled_end := "N/A"
    shortlink := "N/A"
    affected_components := "N/A" }

/-- `{inc.get('id', 'unknown') for inc in l}`: the Python id set. -/
def incidentIds (l : List Incident) : Finset String :=
  (l.map Incident.id).toFinset

def maintenanceIds (l : List Maintenance) : Finset String :=
  (l.map Maintenance.id).toFinset

/-- `{(comp.get('name'), comp.get('status_value')) for comp in l}`. -/
def componentPairs (l : List Component) : Finset (String × Int) :=
  (l.map fun c => (c.name, c.status_value)).toFinset

def componentNames (l : List Component) : Finset String :=
  (l.map Component.name).toFinset

/-- `cached_by_id.get(id)` where `cached_by_id = {inc['id']: inc for inc
in cached}`: a Python dict comprehension keeps the last record for a
duplicated id. -/
def lookupIncidentLast (id : String) (l : List Incident) : Option Incident :=
  (l.filter fun i => i.id = id).getLast?

def lookupMaintenanceLast (id : String) (l : List Maintenance) : Option Maintenance :=
  (l.filter fun m => m.id = id).getLast?

/-- Defaults of the `.get` calls in the incident retraction block
(service_monitor.py lines 301-307), for the unreachable dict miss. -/
def defaultIncident : Incident :=
  { id := "unknown", name := "Unknown", status := "unknown", impact := "unknown"
    started_at := "unknown", updated_at := "unknown", shortlink := "N/A"
    affected_components := [] }

/-- Defaults of the `.get` calls in the maintenance retraction block
(service_monitor.py lines 429-435). -/
def defaultMaintenance : Maintenance :=
  { id := "unknown", name := "Unknown", status := "unknown"
    scheduled_start := "unknown", scheduled_end := "unknown", shortlink := "N/A"
    affected_components := [] }

/-- Retractions for `cached_ids - current_ids` (service_monitor.py lines
290-319): value 0 at the labels rebuilt from the cached record.  CPython
iterates the id set in unspecified order; the model iterates resolved
ids in first-occurrence order of the cached list. -/
def incidentRetractions (service_name : String) (cachedIncs : List Incident)
    (currentIds : Finset String) : List Mutation :=
  ((cachedIncs.map Incident.id).dedup.filter fun i => i ∉ currentIds).map fun rid =>
    let inc := (lookupIncidentLast rid cachedIncs).getD defaultIncident
    Mutation.setIncidentInfo (incidentLabels service_name rid inc) 0

/-- Set-mutations for the full current active incident list, or the
sentinel when it is empty (service_monitor.py lines 321-365). -/
def incidentSets (service_name : String) (cur : List Incident) : List Mutation :=
  if cur = [] then [Mutation.setIncidentInfo (noIncidentLabels service_name) 0]
  else cur.map fun inc => Mutation.setIncidentInfo (incidentLabels service_name inc.id inc) 1

/-- Incident gauge writes for one service (service_monitor.py lines
242-368): nothing when the id sets coincide, otherwise retractions (when
a cache exists) followed by the full current set. -/
def incidentMutations (service_name : String) (cached : Option PollResult)
    (result : PollResult) : List Mutation :=
  match cached with
  | none => incidentSets service_name result.incident_metadata
  | some cd =>
      if incidentIds result.incident_metadata = incidentIds cd.incident_metadata then []
      else incidentRetractions service_name cd.incident_metadata
              (incidentIds result.incident_metadata)
            ++ incidentSets service_name result.incident_metadata

/-- Maintenance retractions (service_monitor.py lines 418-447). -/
def maintenanceRetractions (service_name : String) (cachedMaints : List Maintenance)
    (currentIds : Finset String) : List Mutation :=
  ((cachedMaints.map Maintenance.id).dedup.filter fun i => i ∉ currentIds).map fun rid =>
    let m := (lookupMaintenanceLast rid cachedMaints).getD defaultMaintenance
    Mutation.setMaintenanceInfo (maintenanceLabels service_name rid m) 0

/-- Maintenance set-mutations or sentinel (service_monitor.py lines
449-492). -/
def maintenanceSets (service_name : String) (cur : List Maintenance) : List Mutation :=
  if cur = [] then [Mutation.setMaintenanceInfo (noMaintenanceLabels service_name) 0]
  else cur.map fun m => Mutation.setMaintenanceInfo (maintenanceLabels service_name m.id m) 1

/-- Maintenance gauge writes for one service (service_monitor.py lines
370-495). -/
def maintenanceMutations (service_name : String) (cached : Option PollResult)
    (result : PollResult) : List Mutation :=
  match cached with
  | none => maintenanceSets service_name result.maintenance_metadata
  | some cd =>
      if maintenanceIds result.maintenance_metadata
          = maintenanceIds cd.maintenance_metadata then []
      else maintenanceRetractions service_name cd.maintenance_metadata
              (maintenanceIds result.maintenance_metadata)
            ++ maintenanceSets service_name result.maintenance_metadata

/-- Component retractions: value 0 for each cached name absent from the
current result (service_monitor.py lines 529-545). -/
def componentRetractions (service_name : String) (cachedComps : List Component)
    (currentNames : Finset String) : List Mutation :=
  ((cachedComps.map Component.name).dedup.filter fun n => n ∉ currentNames).map fun n =>
    Mutation.setComponentStatus service_name n 0

/-- Set-mutations for every current component (service_monitor.py lines
547-568; an empty current list emits nothing). -/
def componentSets (service_name : String) (cur : List Component) : List Mutation :=
  cur.map fun c => Mutation.setComponentStatus service_name c.name c.status_value

/-- Component gauge writes for one service (service_monitor.py lines
497-571): nothing when the (name, status_value) pair sets coincide. -/
def componentMutations (service_name : String) (cached : Option PollResult)
    (result : PollResult) : List Mutation :=
  match cached with
  | none => componentSets service_name result.component_metadata
  | some cd =>
      if componentPairs result.component_metadata
          = componentPairs cd.component_metadata then []
      else componentRetractions service_name cd.component_metadata
              (componentNames result.component_metadata)
            ++ componentSets service_name result.component_metadata

/-- Overall status gauge write (service_monitor.py lines 211-240): only
when no cache exists or the cached status differs. -/
def statusMutations (service_name : String) (cached : Option PollResult)
    (status_value : Int) : List Mutation :=
  match cached with
  | none => [Mutation.setStatus service_name status_value]
  | some cd =>
      if cd.status = some status_value then []
      else [Mutation.setStatus service_name status_value]

/-- The per-service gauge update of `monitor_services`
(service_monitor.py lines 190-572): skipped entirely when the result's
status is null; otherwise response time is always written first, then
status, incidents, maintenance and components selectively. -/
def monitor_service (service_name : String) (cached : Option PollResult)
    (result : PollResult) : List Mutation :=
  match result.status with
  | none => []
  | some status_value =>
      Mutation.setResponseTime service_name result.response_time
        :: (statusMutations service_name cached status_value
            ++ incidentMutations service_name cached result
            ++ maintenanceMutations service_name cached result
            ++ componentMutations service_name cached result)

/-! ### Cache (baseline) update policy (service_checker.py lines 460-496)
and the per-entity cycle of service_monitor.py lines 126-168 -/

/-- `cache_should_update` (service_checker.py lines 462-484): with an
existing cache the baseline is rewritten only when the status, the
incident id set, the maintenance id set or the component
(name, status_value) set changed. -/
def cache_should_update (existing : Option PollResult) (result : PollResult) : Bool :=
  match existing with
  | none => true
  | some c =>
      decide (c.status ≠ result.status)
      || decide (incidentIds result.incident_metadata ≠ incidentIds c.incident_metadata)
      || decide (maintenanceIds result.maintenance_metadata
                  ≠ maintenanceIds c.maintenance_metadata)
      || decide (componentPairs result.component_metadata
                  ≠ componentPairs c.component_metadata)

/-- `cache_result.pop('response_time', None)` (service_checker.py line
489): the stored baseline carries no response time; the model zeroes the
field. -/
def dropResponseTime (r : PollResult) : PollResult :=
  { r with response_time := 0 }

/-- The stored baseline after one check (service_checker.py lines
486-496 on success; every failure handler returns without touching the
cache). -/
def checkerCacheAfter (existing : Option PollResult) (result : PollResult) :
    Option PollResult :=
  if result.success then
    if cache_should_update existing result then some (dropResponseTime result)
    else existing
  else existing

/-- The cache fallback of service_monitor.py lines 137-161: a failed
check is replaced wholesale by the cached result when one exists. -/
def fallbackResult (cached : Option PollResult) (result : PollResult) : PollResult :=
  if result.success then result
  else
    match cached with
    | some c => c
    | none => result

/-- One full cycle for one entity: the baseline is loaded before the
check (service_monitor.py lines 126-128), the checker decides the new
stored baseline, and the gauge update compares the (possibly
cache-substituted) result against the pre-cycle baseline. -/
def entityCycle (service_name : String) (baseline : Option PollResult)
    (checkResult : PollResult) : List Mutation × Option PollResult :=
  (monitor_service service_name baseline (fallbackResult baseline checkResult),
   checkerCacheAfter baseline checkResult)

/-! ### Gauge-filtered views of a mutation list -/

def isIncidentMutation : Mutation → Bool
  | .setIncidentInfo _ _ => true
  | _ => false

def isComponentMutation : Mutation → Bool
  | .setComponentStatus _ _ _ => true
  | _ => false

/-- The incident-gauge writes among a cycle's mutations. -/
def incidentGaugeWrites (l : List Mutation) : List Mutation :=
  l.filter isIncidentMutation

/-- The component-gauge writes among a cycle's mutations. -/
def componentGaugeWrites (l : List Mutation) : List Mutation :=
  l.filter isComponentMutation

/-! ### Startup invocation model (status_monitoring.py lines 108-111,
service_monitor.py line 110) -/

/-- The parameter list of `def monitor_services():` in the Atlassian
variant's service_monitor.py (line 110): it declares no parameter. -/
def monitorServicesParams : List String := []

/-- The keyword arguments of the unconditional startup call
`monitor_services(is_initial_run=True)` in status_monitoring.py line
111. -/
def startupCallKwargs : List String := ["is_initial_run"]

/-- A Python call to a function without a `**` catch-all accepts a
keyword argument only when it names a declared parameter; otherwise the
call raises TypeError. -/
def callAccepted (params kwargs : List String) : Bool :=
  kwargs.all fun k => params.contains k

/-! ### Sample records used by witnesses and counterexamples -/

/-- A transport-failure record (service_checker.py lines 532-545). -/
def sampleError : PollResult :=
  { status := none, response_time := 0, raw_status := "timeout", status_text := "Timeout"
    details := "Request timeout", success := false, incident_metadata := []
    maintenance_metadata := [], component_metadata := [] }

/-- A healthy successful poll result. -/
def sampleB : PollResult :=
  { status := some 1, response_time := 3, raw_status := "none", status_text := "Operational"
    details := "All good", success := true, incident_metadata := []
    maintenance_metadata := [], component_metadata := [] }

/-- `sampleB` with only transport fields changed. -/
def sampleB2 : PollResult :=
  { sampleB with
    response_time := 99
    raw_status := "nonesuch"
    status_text := "Different text"
    details := "Different details" }

/-- An incident with a given id and impact. -/
def mkImpactIncident (id imp : String) : Incident :=
  { id := id, name := "Incident", status := "investigating", impact := imp
    started_at := "2025-11-04T13:25:38.181Z", updated_at := "2025-11-04T13:25:38Z"
    shortlink := "", affected_components := [] }

def sampleIncidentA : Incident :=
  { id := "inc-A", name := "Incident A", status := "investigating", impact := "major"
    started_at := "2025-11-04T13:25:38.181Z", updated_at := "2025-11-04T13:30:00Z"
    shortlink := "https://stspg.io/a", affected_components := ["API", "Web"] }

def sampleIncidentB : Incident :=
  { id := "inc-B", name := "Incident B", status := "investigating", impact := "minor"
    started_at := "2025-11-05T01:00:00.000Z", updated_at := "2025-11-05T01:05:00Z"
    shortlink := "https://stspg.io/b", affected_components := ["API"] }

/-- `sampleIncidentB` after cosmetic drift: same id, different lifecycle
text and updated_at. -/
def sampleIncidentB2 : Incident :=
  { sampleIncidentB with status := "monitoring", updated_at := "2025-11-05T02:00:00Z" }

def cosmeticPrev : PollResult :=
  { sampleB with incident_metadata := [sampleIncidentB] }

def cosmeticNew : PollResult :=
  { sampleB with incident_metadata := [sampleIncidentB2], details := "reworded" }

def retractPrev : PollResult :=
  { sampleB with incident_metadata := [sampleIncidentA, sampleIncidentB] }

def retractNew : PollResult :=
  { sampleB with incident_metadata := [sampleIncidentB] }

def scenCPrev : PollResult :=
  { sampleB with component_metadata := [⟨"API", "operational", 1⟩] }

def scenCNew : PollResult :=
  { sampleB with
    component_metadata := [⟨"API", "operational", 1⟩, ⟨"Web", "major_outage", -1⟩] }

/-- Invariant of the highest-severity scan state: its priority is in
range and, when positive, names exactly the impact of that priority. -/
def SevOk (st : SevState) : Prop :=
  st.priority ≤ 3 ∧ (st.priority ≠ 0 → st.severity = severityName st.priority)

/-! ### Theorems -/

theorem stripMillisAux_no_pattern (fuel : Nat) :
    ∀ l : List Char, hasMillisPattern l = false → stripMillisAux fuel l = l := by
  induction fuel with
  | zero => intro l _; rfl
  | succ n ih =>
    intro l h
    cases l with
    | nil => rfl
    | cons c rest =>
      rw [hasMillisPattern] at h
      rcases Bool.or_eq_false_iff.mp h with ⟨h1, h2⟩
      simp only [stripMillisAux, h1, Bool.false_eq_true, if_false, ih rest h2]

theorem stripMillis_no_pattern (l : List Char) (h : hasMillisPattern l = false) :
    stripMillis l = l :=
  stripMillisAux_no_pattern l.length l h

/-- C4 (counterexample): `normalize_timestamp` is not idempotent over all
input strings: on ".123.456Z" the first pass strips only the second
fractional group and leaves a strippable pattern behind, so a second
pass changes the string again. -/
theorem normalize_timestamp_not_idempotent :
    normalize_timestamp (normalize_timestamp ".123.456Z")
      ≠ normalize_timestamp ".123.456Z" := by decide

/-- C4 (amended): `normalize_timestamp` strips three-digit sub-second
fractions immediately preceding a Z or UTC-offset character (the example
"2025-11-04T13:25:38.181Z" yields "2025-11-04T13:25:38Z"); it is a no-op
on every string containing no such fraction pattern (in particular on
every already-normalized timestamp); and "unknown", "N/A" and the empty
string pass through unchanged. -/
theorem normalize_timestamp_spec :
    normalize_timestamp "2025-11-04T13:25:38.181Z" = "2025-11-04T13:25:38Z"
    ∧ (∀ s : String, hasMillisPattern s.data = false → normalize_timestamp s = s)
    ∧ normalize_timestamp "unknown" = "unknown"
    ∧ normalize_timestamp "N/A" = "N/A"
    ∧ normalize_timestamp "" = "" := by
  refine ⟨by decide, fun s h => ?_, by decide, by decide, by decide⟩
  unfold normalize_timestamp
  split
  · rfl
  · rw [stripMillis_no_pattern s.data h]

/-- C4 (witness): an already-normalized timestamp is left unchanged. -/
theorem normalize_timestamp_spec_witness :
    normalize_timestamp "2025-11-04T13:25:38Z" = "2025-11-04T13:25:38Z" :=
  normalize_timestamp_spec.2.1 "2025-11-04T13:25:38Z" (by decide)

/-- C6 (counterexample): in the Atlassian variant the indicator 'minor'
maps to 0, not to a negative value. -/
theorem status_mapping_minor_not_negative :
    statusValueOfIndicator "minor" = 0 ∧ ¬ statusValueOfIndicator "minor" < 0 := by
  decide

/-- C6 (amended): the indicator-to-numeric mapping is total with range
{0, 1}: 'none' maps to 1, while 'minor', 'major', 'critical',
'maintenance' and unrecognized indicators all map to 0, never
raising. -/
theorem status_mapping_total :
    (∀ s : String, statusValueOfIndicator s = 1 ∨ statusValueOfIndicator s = 0)
    ∧ statusValueOfIndicator "none" = 1
    ∧ statusValueOfIndicator "minor" = 0
    ∧ statusValueOfIndicator "major" = 0
    ∧ statusValueOfIndicator "critical" = 0
    ∧ statusValueOfIndicator "maintenance" = 0
    ∧ statusValueOfIndicator "garbage-string" = 0 := by
  refine ⟨fun s => ?_, by decide, by decide, by decide, by decide, by decide, by decide⟩
  unfold statusValueOfIndicator status_mapping
  split_ifs <;> simp

/-- C10: the unconditional startup call
`monitor_services(is_initial_run=True)` (status_monitoring.py line 111)
is not accepted by the parameter list of `monitor_services`
(service_monitor.py line 110 declares no parameter), so the initial run
raises TypeError instead of completing. -/
theorem startup_call_rejected :
    callAccepted monitorServicesParams startupCallKwargs = false := by decide

/-- C1: when a check fails and the (possibly cache-substituted) result
still has a null status, the cycle emits zero mutations for the entity
and the stored baseline is left unchanged, whatever the previous
baseline was. -/
theorem null_status_skip (service_name : String) (baseline : Option PollResult)
    (checkResult : PollResult) (hfail : checkResult.success = false)
    (hnull : (fallbackResult baseline checkResult).status = none) :
    entityCycle service_name baseline checkResult = ([], baseline) := by
  unfold entityCycle checkerCacheAfter monitor_service
  rw [hfail, hnull]
  simp

/-- C1 (witness): a timeout with no cached baseline is skipped. -/
theorem null_status_skip_witness :
    entityCycle "svc" none sampleError = ([], none) :=
  null_status_skip "svc" none sampleError rfl rfl

/-- C2 (counterexample): feeding the baseline's own result back in does
not produce zero mutations: the response-time gauge is written
unconditionally on every successful cycle. -/
theorem unchanged_input_emits_response_time :
    (entityCycle "svc" (some sampleB) sampleB).1 ≠ [] := by decide

/-- C2 (amended): reconciling a previous baseline B with a new result
equal to B emits exactly the unconditional response-time write — no
status, incident, maintenance or component gauge is set or retracted —
and leaves the stored baseline equal to B. -/
theorem idempotent_reapply (service_name : String) (B : PollResult) (v : Int)
    (hsucc : B.success = true) (hstat : B.status = some v) :
    entityCycle service_name (some B) B =
      ([Mutation.setResponseTime service_name B.response_time], some B) := by
  unfold entityCycle
  have hfb : fallbackResult (some B) B = B := by simp [fallbackResult, hsucc]
  rw [hfb]
  have h1 : monitor_service service_name (some B) B =
      [Mutation.setResponseTime service_name B.response_time] := by
    unfold monitor_service
    rw [hstat]
    simp [statusMutations, hstat, incidentMutations, maintenanceMutations,
      componentMutations]
  have h2 : checkerCacheAfter (some B) B = some B := by
    simp [checkerCacheAfter, hsucc, cache_should_update]
  rw [h1, h2]

/-- C2 (witness). -/
theorem idempotent_reapply_witness :
    entityCycle "svc" (some sampleB) sampleB =
      ([Mutation.setResponseTime "svc" 3], some sampleB) :=
  idempotent_reapply "svc" sampleB 1 rfl rfl

/-- C3: with an existing baseline and a successful new result, the stored
baseline is replaced by the (response-time-stripped) new result when the
status, the incident id set, the maintenance id set or the component
(name, status_value) set changed, and is left untouched when all four
agree — so differences confined to response_time, raw_status,
status_text or details never rewrite the baseline. -/
theorem baseline_update_policy (B R : PollResult) (hsucc : R.success = true) :
    ((B.status ≠ R.status
        ∨ incidentIds R.incident_metadata ≠ incidentIds B.incident_metadata
        ∨ maintenanceIds R.maintenance_metadata ≠ maintenanceIds B.maintenance_metadata
        ∨ componentPairs R.component_metadata ≠ componentPairs B.component_metadata) →
      checkerCacheAfter (some B) R = some (dropResponseTime R))
    ∧ ((B.status = R.status
        ∧ incidentIds R.incident_metadata = incidentIds B.incident_metadata
        ∧ maintenanceIds R.maintenance_metadata = maintenanceIds B.maintenance_metadata
        ∧ componentPairs R.component_metadata = componentPairs B.component_metadata) →
      checkerCacheAfter (some B) R = some B) := by
  constructor
  · intro h
    have hc : cache_should_update (some B) R = true := by
      rcases h with h | h | h | h <;> simp [cache_should_update, h]
    simp [checkerCacheAfter, hsucc, hc]
  · rintro ⟨h1, h2, h3, h4⟩
    have hc : cache_should_update (some B) R = false := by
      simp [cache_should_update, h1, h2, h3, h4]
    simp [checkerCacheAfter, hsucc, hc]

/-- C3 (witness): a result differing from the baseline only in
transport fields leaves the stored baseline untouched. -/
theorem baseline_update_policy_witness :
    checkerCacheAfter (some sampleB) sampleB2 = some sampleB :=
  (baseline_update_policy sampleB sampleB2 rfl).2 (by decide)

theorem severity_priority_le (s : String) : severity_priority s ≤ 3 := by
  unfold severity_priority
  split_ifs <;> omega

theorem severity_priority_name (s : String) (h : severity_priority s ≠ 0) :
    severityName (severity_priority s) = s := by
  unfold severity_priority at h ⊢
  split_ifs at h ⊢ with h1 h2 h3
  · rw [h1]; rfl
  · rw [h2]; rfl
  · rw [h3]; rfl
  · exact absurd rfl h

theorem le_foldl_max {α : Type} (f : α → Nat) :
    ∀ (l : List α) (a : Nat), a ≤ l.foldl (fun m x => max m (f x)) a := by
  intro l
  induction l with
  | nil => intro a; exact Nat.le_refl a
  | cons x tl ih =>
    intro a
    exact Nat.le_trans (Nat.le_max_left a (f x)) (ih (max a (f x)))

theorem sevFold :
    ∀ (incs : List Incident) (acc : SevState),
      (∀ i ∈ incs, isSystemMetadataTest i = false) →
      (incs.foldl sevStep acc).priority
          = incs.foldl (fun m i => max m (severity_priority (lowerStr i.impact)))
              acc.priority
      ∧ (SevOk acc → SevOk (incs.foldl sevStep acc))
      ∧ ((incs.foldl sevStep acc).priority = 0 → incs.foldl sevStep acc = acc) := by
  intro incs
  induction incs with
  | nil => exact fun acc _ => ⟨rfl, fun hk => hk, fun _ => rfl⟩
  | cons i tl ih =>
    intro acc h
    have hi : isSystemMetadataTest i = false := h i (List.mem_cons_self i tl)
    have htl : ∀ j ∈ tl, isSystemMetadataTest j = false :=
      fun j hj => h j (List.mem_cons_of_mem i hj)
    have hstep :
        (sevStep acc i = acc ∧ severity_priority (lowerStr i.impact) ≤ acc.priority)
        ∨ (sevStep acc i
              = ⟨lowerStr i.impact, severity_priority (lowerStr i.impact)⟩
            ∧ acc.priority < severity_priority (lowerStr i.impact)) := by
      unfold sevStep
      rw [hi]
      by_cases hc : acc.priority < severity_priority (lowerStr i.impact)
      · right; exact ⟨by simp [hc], hc⟩
      · left; exact ⟨by simp [hc], Nat.le_of_not_lt hc⟩
    obtain ⟨ih1, ih2, ih3⟩ := ih (sevStep acc i) htl
    simp only [List.foldl_cons]
    rcases hstep with ⟨heq, hle⟩ | ⟨heq, hlt⟩
    · refine ⟨?_, fun hk => ?_, fun hz => ?_⟩
      · rw [heq] at ih1 ⊢
        rw [ih1, Nat.max_eq_left hle]
      · exact ih2 (by rw [heq]; exact hk)
      · exact (ih3 hz).trans heq
    · refine ⟨?_, fun hk => ?_, fun hz => ?_⟩
      · rw [heq] at ih1 ⊢
        rw [ih1, Nat.max_eq_right (Nat.le_of_lt hlt)]
      · refine ih2 ?_
        rw [heq]
        have hp : severity_priority (lowerStr i.impact) ≠ 0 :=
          Nat.pos_iff_ne_zero.mp (Nat.lt_of_le_of_lt (Nat.zero_le _) hlt)
        exact ⟨severity_priority_le _, fun _ => (severity_priority_name _ hp).symm⟩
      · exfalso
        have h1 : (sevStep acc i).priority ≤ (tl.foldl sevStep (sevStep acc i)).priority := by
          rw [ih1]
          exact le_foldl_max _ tl _
        rw [hz, heq] at h1
        simp only at h1
        omega

theorem severityName_ne_none (n : Nat) (h0 : n ≠ 0) (h3 : n ≤ 3) :
    severityName n ≠ "none" := by
  interval_cases n
  · exact absurd rfl h0
  · decide
  · decide
  · decide

/-- C5: over a non-empty list of active, non-test incidents the derived
indicator is the impact whose priority is maximal under
critical(3) > major(2) > minor(1) > none(0); when no incident carries an
impact above 'none' the raw status-page indicator is kept. -/
theorem severity_derivation (raw : String) (incs : List Incident)
    (hne : incs ≠ []) (hnt : ∀ i ∈ incs, isSystemMetadataTest i = false) :
    derive_indicator raw incs =
      if maxImpactPriority incs = 0 then raw
      else severityName (maxImpactPriority incs) := by
  obtain ⟨hpri, hok, hzero⟩ := sevFold incs ⟨"none", 0⟩ hnt
  have hmax : (highestSeverity incs).priority = maxImpactPriority incs := hpri
  unfold derive_indicator
  rw [if_neg hne]
  by_cases h0 : maxImpactPriority incs = 0
  · rw [if_pos h0]
    have : highestSeverity incs = ⟨"none", 0⟩ := hzero (hmax.trans h0)
    rw [this]
    simp
  · rw [if_neg h0]
    have hk : SevOk (highestSeverity incs) :=
      hok ⟨Nat.zero_le 3, fun hc => absurd rfl hc⟩
    have hsev : (highestSeverity incs).severity
        = severityName (maxImpactPriority incs) := by
      rw [← hmax]
      exact hk.2 (by rw [hmax]; exact h0)
    rw [hsev]
    rw [if_pos (severityName_ne_none _ h0 (hmax ▸ hk.1))]

/-- C5 (witness): impacts [minor, critical, major] derive 'critical'. -/
theorem severity_derivation_witness :
    derive_indicator "none"
      [mkImpactIncident "i1" "minor", mkImpactIncident "i2" "critical",
       mkImpactIncident "i3" "major"] = "critical" := by
  rw [severity_derivation "none" _ (by decide) (by decide)]
  decide

theorem mem_statusMutations_flags {m : Mutation} {n : String} {c : Option PollResult}
    {v : Int} (h : m ∈ statusMutations n c v) :
    isIncidentMutation m = false ∧ isComponentMutation m = false := by
  cases c with
  | none =>
    simp only [statusMutations, List.mem_singleton] at h
    subst h
    exact ⟨rfl, rfl⟩
  | some cd =>
    simp only [statusMutations] at h
    split at h
    · exact absurd h (List.not_mem_nil m)
    · rw [List.mem_singleton] at h
      subst h
      exact ⟨rfl, rfl⟩

theorem mem_incidentMutations_flags {m : Mutation} {n : String} {c : Option PollResult}
    {r : PollResult} (h : m ∈ incidentMutations n c r) :
    isIncidentMutation m = true ∧ isComponentMutation m = false := by
  have hsets : ∀ cur, m ∈ incidentSets n cur →
      isIncidentMutation m = true ∧ isComponentMutation m = false := by
    intro cur hm
    unfold incidentSets at hm
    split at hm
    · rw [List.mem_singleton] at hm
      subst hm
      exact ⟨rfl, rfl⟩
    · rw [List.mem_map] at hm
      obtain ⟨i, _, hi⟩ := hm
      subst hi
      exact ⟨rfl, rfl⟩
  have hretr : ∀ ci ids, m ∈ incidentRetractions n ci ids →
      isIncidentMutation m = true ∧ isComponentMutation m = false := by
    intro ci ids hm
    unfold incidentRetractions at hm
    rw [List.mem_map] at hm
    obtain ⟨rid, _, hi⟩ := hm
    subst hi
    exact ⟨rfl, rfl⟩
  cases c with
  | none => exact hsets _ h
  | some cd =>
    simp only [incidentMutations] at h
    split at h
    · exact absurd h (List.not_mem_nil m)
    · rw [List.mem_append] at h
      rcases h with h | h
      · exact hretr _ _ h
      · exact hsets _ h

theorem mem_maintenanceMutations_flags {m : Mutation} {n : String}
    {c : Option PollResult} {r : PollResult} (h : m ∈ maintenanceMutations n c r) :
    isIncidentMutation m = false ∧ isComponentMutation m = false := by
  have hsets : ∀ cur, m ∈ maintenanceSets n cur →
      isIncidentMutation m = false ∧ isComponentMutation m = false := by
    intro cur hm
    unfold maintenanceSets at hm
    split at hm
    · rw [List.mem_singleton] at hm
      subst hm
      exact ⟨rfl, rfl⟩
    · rw [List.mem_map] at hm
      obtain ⟨i, _, hi⟩ := hm
      subst hi
      exact ⟨rfl, rfl⟩
  have hretr : ∀ ci ids, m ∈ maintenanceRetractions n ci ids →
      isIncidentMutation m = false ∧ isComponentMutation m = false := by
    intro ci ids hm
    unfold maintenanceRetractions at hm
    rw [List.mem_map] at hm
    obtain ⟨rid, _, hi⟩ := hm
    subst hi
    exact ⟨rfl, rfl⟩
  cases c with
  | none => exact hsets _ h
  | some cd =>
    simp only [maintenanceMutations] at h
    split at h
    · exact absurd h (List.not_mem_nil m)
    · rw [List.mem_append] at h
      rcases h with h | h
      · exact hretr _ _ h
      · exact hsets _ h

theorem mem_componentMutations_flags {m : Mutation} {n : String}
    {c : Option PollResult} {r : PollResult} (h : m ∈ componentMutations n c r) :
    isIncidentMutation m = false ∧ isComponentMutation m = true := by
  have hsets : ∀ cur, m ∈ componentSets n cur →
      isIncidentMutation m = false ∧ isComponentMutation m = true := by
    intro cur hm
    unfold componentSets at hm
    rw [List.mem_map] at hm
    obtain ⟨i, _, hi⟩ := hm
    subst hi
    exact ⟨rfl, rfl⟩
  have hretr : ∀ ci ids, m ∈ componentRetractions n ci ids →
      isIncidentMutation m = false ∧ isComponentMutation m = true := by
    intro ci ids hm
    unfold componentRetractions at hm
    rw [List.mem_map] at hm
    obtain ⟨rid, _, hi⟩ := hm
    subst hi
    exact ⟨rfl, rfl⟩
  cases c with
  | none => exact hsets _ h
  | some cd =>
    simp only [componentMutations] at h
    split at h
    · exact absurd h (List.not_mem_nil m)
    · rw [List.mem_append] at h
      rcases h with h | h
      · exact hretr _ _ h
      · exact hsets _ h

/-- The incident-gauge writes of one service's update are exactly its
incident mutations: the response-time, status, maintenance and component
writes belong to other gauges. -/
theorem incidentWrites_monitor (service_name : String) (cached : Option PollResult)
    (result : PollResult) (v : Int) (hstat : result.status = some v) :
    incidentGaugeWrites (monitor_service service_name cached result)
      = incidentMutations service_name cached result := by
  unfold monitor_service
  rw [hstat]
  unfold incidentGaugeWrites
  rw [List.filter_cons, List.filter_append, List.filter_append, List.filter_append]
  have h1 : (statusMutations service_name cached v).filter isIncidentMutation = [] :=
    List.filter_eq_nil_iff.mpr fun m hm => by
      simp [(mem_statusMutations_flags hm).1]
  have h2 : (incidentMutations service_name cached result).filter isIncidentMutation
      = incidentMutations service_name cached result :=
    List.filter_eq_self.mpr fun m hm => (mem_incidentMutations_flags hm).1
  have h3 : (maintenanceMutations service_name cached result).filter isIncidentMutation
      = [] :=
    List.filter_eq_nil_iff.mpr fun m hm => by
      simp [(mem_maintenanceMutations_flags hm).1]
  have h4 : (componentMutations service_name cached result).filter isIncidentMutation
      = [] :=
    List.filter_eq_nil_iff.mpr fun m hm => by
      simp [(mem_componentMutations_flags hm).1]
  rw [h1, h2, h3, h4]
  simp [isIncidentMutation]

/-- The component-gauge writes of one service's update are exactly its
component mutations. -/
theorem componentWrites_monitor (service_name : String) (cached : Option PollResult)
    (result : PollResult) (v : Int) (hstat : result.status = some v) :
    componentGaugeWrites (monitor_service service_name cached result)
      = componentMutations service_name cached result := by
  unfold monitor_service
  rw [hstat]
  unfold componentGaugeWrites
  rw [List.filter_cons, List.filter_append, List.filter_append, List.filter_append]
  have h1 : (statusMutations service_name cached v).filter isComponentMutation = [] :=
    List.filter_eq_nil_iff.mpr fun m hm => by
      simp [(mem_statusMutations_flags hm).2]
  have h2 : (incidentMutations service_name cached result).filter isComponentMutation
      = [] :=
    List.filter_eq_nil_iff.mpr fun m hm => by
      simp [(mem_incidentMutations_flags hm).2]
  have h3 : (maintenanceMutations service_name cached result).filter isComponentMutation
      = [] :=
    List.filter_eq_nil_iff.mpr fun m hm => by
      simp [(mem_maintenanceMutations_flags hm).2]
  have h4 : (componentMutations service_name cached result).filter isComponentMutation
      = componentMutations service_name cached result :=
    List.filter_eq_self.mpr fun m hm => (mem_componentMutations_flags hm).2
  rw [h1, h2, h3, h4]
  simp [isComponentMutation]

/-- C8: when the previous baseline and the new result carry identical
incident id sets, the cycle emits zero incident-gauge mutations, so the
incident-gauge output is independent of non-identifying incident fields
such as updated_at and description text. -/
theorem cosmetic_change_suppression (service_name : String) (prev R : PollResult)
    (v : Int) (hstat : R.status = some v)
    (hids : incidentIds R.incident_metadata = incidentIds prev.incident_metadata) :
    incidentGaugeWrites (monitor_service service_name (some prev) R) = [] := by
  rw [incidentWrites_monitor service_name (some prev) R v hstat]
  simp only [incidentMutations]
  rw [if_pos hids]

/-- C8 (witness): the same incident id with drifted updated_at and
lifecycle text emits nothing. -/
theorem cosmetic_change_suppression_witness :
    incidentGaugeWrites (monitor_service "svc" (some cosmeticPrev) cosmeticNew) = [] :=
  cosmetic_change_suppression "svc" cosmeticPrev cosmeticNew 1 rfl (by decide)

/-- C7: with baseline incidents [A, B] and a new result holding only B
(same id, possibly refreshed fields Bn), the incident-gauge mutations
are exactly one retraction at value 0 for A — at the labels rebuilt from
A's cached metadata — followed by one set-mutation at value 1 for B; no
mutation mentions any other incident id. -/
theorem retraction_completeness (service_name : String) (prev R : PollResult)
    (A B Bn : Incident) (hAB : A.id ≠ B.id) (hBn : Bn.id = B.id)
    (hprev : prev.incident_metadata = [A, B]) (hcur : R.incident_metadata = [Bn])
    (v : Int) (hstat : R.status = some v) :
    incidentGaugeWrites (monitor_service service_name (some prev) R) =
      [Mutation.setIncidentInfo (incidentLabels service_name A.id A) 0,
       Mutation.setIncidentInfo (incidentLabels service_name Bn.id Bn) 1] := by
  rw [incidentWrites_monitor service_name (some prev) R v hstat]
  simp only [incidentMutations, hprev, hcur]
  have hAb : A.id ≠ Bn.id := by rw [hBn]; exact hAB
  have hA_not : A.id ∉ incidentIds [Bn] := by
    simp only [incidentIds, List.map_cons, List.map_nil, List.mem_toFinset,
      List.mem_singleton]
    exact hAb
  have hB_in : B.id ∈ incidentIds [Bn] := by
    simp only [incidentIds, List.map_cons, List.map_nil, List.mem_toFinset,
      List.mem_singleton]
    exact hBn.symm
  have hne : incidentIds [Bn] ≠ incidentIds [A, B] := by
    intro he
    have hmem : A.id ∈ incidentIds [A, B] := by
      simp [incidentIds]
    rw [← he] at hmem
    exact hA_not hmem
  rw [if_neg hne]
  have hretr : incidentRetractions service_name [A, B] (incidentIds [Bn]) =
      [Mutation.setIncidentInfo (incidentLabels service_name A.id A) 0] := by
    unfold incidentRetractions
    have hmap : [A, B].map Incident.id = [A.id, B.id] := rfl
    rw [hmap]
    have hdd : ([A.id, B.id] : List String).dedup = [A.id, B.id] := by
      rw [List.dedup_cons_of_not_mem (by simp [hAB])]
      simp
    rw [hdd]
    have hfil : (([A.id, B.id] : List String).filter
        fun i => decide (i ∉ incidentIds [Bn])) = [A.id] := by
      simp [List.filter, hA_not, hB_in]
    rw [hfil]
    have hlook : lookupIncidentLast A.id [A, B] = some A := by
      have hBA : ¬ B.id = A.id := fun hh => hAB hh.symm
      unfold lookupIncidentLast
      have hfA : ([A, B].filter fun i => decide (i.id = A.id)) = [A] := by
        simp [List.filter, hBA]
      rw [hfA]
      rfl
    simp [hlook]
  have hsets : incidentSets service_name [Bn] =
      [Mutation.setIncidentInfo (incidentLabels service_name Bn.id Bn) 1] := by
    simp [incidentSets]
  rw [hretr, hsets]
  rfl

/-- C7 (witness): {inc-A, inc-B} shrinking to {inc-B}. -/
theorem retraction_completeness_witness :
    incidentGaugeWrites (monitor_service "svc" (some retractPrev) retractNew) =
      [Mutation.setIncidentInfo (incidentLabels "svc" "inc-A" sampleIncidentA) 0,
       Mutation.setIncidentInfo (incidentLabels "svc" "inc-B" sampleIncidentB) 1] :=
  retraction_completeness "svc" retractPrev retractNew
    sampleIncidentA sampleIncidentB sampleIncidentB (by decide) rfl rfl rfl 1 rfl

/-- C9: if the (name, status_value) pair sets of the new result and the
baseline coincide, zero component-gauge mutations are emitted; otherwise
every baseline name absent from the current result is retracted at 0,
every current component is set to its derived status_value, and the
stored baseline is rewritten. -/
theorem component_reconciliation (service_name : String) (prev R : PollResult)
    (v : Int) (hstat : R.status = some v) (hsucc : R.success = true) :
    (componentPairs R.component_metadata = componentPairs prev.component_metadata →
      componentGaugeWrites (monitor_service service_name (some prev) R) = [])
    ∧ (componentPairs R.component_metadata ≠ componentPairs prev.component_metadata →
      componentGaugeWrites (monitor_service service_name (some prev) R) =
        ((prev.component_metadata.map Component.name).dedup.filter
            fun n => n ∉ componentNames R.component_metadata).map
          (fun n => Mutation.setComponentStatus service_name n 0)
        ++ R.component_metadata.map
            fun c => Mutation.setComponentStatus service_name c.name c.status_value)
    ∧ (componentPairs R.component_metadata ≠ componentPairs prev.component_metadata →
      checkerCacheAfter (some prev) R = some (dropResponseTime R)) := by
  refine ⟨fun h => ?_, fun h => ?_, fun h => ?_⟩
  · rw [componentWrites_monitor service_name (some prev) R v hstat]
    simp only [componentMutations]
    rw [if_pos h]
  · rw [componentWrites_monitor service_name (some prev) R v hstat]
    simp only [componentMutations]
    rw [if_neg h]
    rfl
  · have hc : cache_should_update (some prev) R = true := by
      simp [cache_should_update, h]
    simp [checkerCacheAfter, hsucc, hc]

/-- C9 (witness, end-to-end scenario C): baseline [("API", 1)], new
result [("API", 1), ("Web", -1)]: both components are set, no
retraction, baseline rewritten. -/
theorem component_reconciliation_witness :
    componentGaugeWrites (monitor_service "svc" (some scenCPrev) scenCNew) =
      [Mutation.setComponentStatus "svc" "API" 1,
       Mutation.setComponentStatus "svc" "Web" (-1)]
    ∧ checkerCacheAfter (some scenCPrev) scenCNew = some (dropResponseTime scenCNew) := by
  have h := component_reconciliation "svc" scenCPrev scenCNew 1 rfl rfl
  refine ⟨?_, h.2.2 (by decide)⟩
  rw [h.2.1 (by decide)]
  decide

end Statuspage
